import Mathlib

/-!
# cli-template: command bootstrap (`cmd/root.go`, `cmd/version.go`)

A shallow embedding of package `cmd`: the package variables, the root
command, the persistent pre-run hook and the body of the version command.

Package `internal/config` is imported by `cmd` but is not part of the two
files embedded here.  Its three exported names used by `cmd` (`LoadConfig`,
`GetConfigPath`, `DefaultConfig`) are taken as parameters, bundled in
`Resolver`; every theorem holds for every resolver.
-/

namespace CliTemplate

/-- A non-nil Go `error` value.  `Error` is the text of the error, which is
what the verb `%s` prints for it. -/
structure GoError where
  Error : String
deriving DecidableEq, Repr

/-- Observable actions of the code of package `cmd`, in program order: calls
into package `config` and writes to the two output streams. -/
inductive Event where
  | LoadConfig (cfgFile name : String)
  | GetConfigPath
  | Stdout (s : String)
  | Stderr (s : String)
deriving DecidableEq, Repr

/-- The part of package `config` used by `cmd`.  `Ptr` is the type
`*config.Config`, `R` is whatever state the package keeps.
`LoadConfig cfgFile name` returns a pair `(*Config, error)` (the error is
`none` for `nil`); `DefaultConfig` stands for the address
`&config.DefaultConfig`. -/
structure Resolver (Ptr R : Type) where
  LoadConfig : String → String → R → (Ptr × Option GoError) × R
  GetConfigPath : R → String × R
  DefaultConfig : Ptr

/-- The package-level variables of `cmd` (root.go, lines 11-17). -/
structure Vars (Ptr : Type) where
  NAME : String
  Version : String
  BuildTime : String
  cfgFile : String
  verbose : Bool
  cfg : Ptr

/-- Initial values of the three build variables (root.go, lines 12-14). -/
def defaultNAME : String := "mycli"

/-- Initial value of `Version`. -/
def defaultVersion : String := "dev"

/-- Initial value of `BuildTime`. -/
def defaultBuildTime : String := "unknown"

/-- State of one process run: package variables of `cmd`, state of package
`config`, and the log of events so far. -/
structure World (Ptr R : Type) where
  vars : Vars Ptr
  resolver : R
  log : List Event

/-- The fields of `cobra.Command` that `cmd` sets, and the parent link that
`AddCommand` establishes. -/
inductive Command where
  | mk (Use Short Long Version : String) (parent : Option Command)

/-- Field `Use`. -/
def Command.Use : Command → String
  | .mk u _ _ _ _ => u

/-- Field `Short`. -/
def Command.Short : Command → String
  | .mk _ s _ _ _ => s

/-- Field `Long`. -/
def Command.Long : Command → String
  | .mk _ _ l _ _ => l

/-- Field `Version`. -/
def Command.Version : Command → String
  | .mk _ _ _ v _ => v

/-- Parent command, `none` for a root. -/
def Command.parent : Command → Option Command
  | .mk _ _ _ _ p => p

/-- The method `(*cobra.Command).Name`: the first word of the use line, that
is `Use` up to (not including) its first space. -/
def Command.Name (c : Command) : String :=
  ⟨c.Use.data.takeWhile (fun ch => ch != ' ')⟩

/-- The call `fmt.Sprintf("%s (built at %s)", Version, BuildTime)`. -/
def versionString (version buildTime : String) : String :=
  version ++ " (built at " ++ buildTime ++ ")"

/-- The value of `rootCmd` apart from its hook (root.go, lines 19-23). -/
def rootCmd {Ptr : Type} (v : Vars Ptr) : Command :=
  .mk v.NAME
    (v.NAME ++ " is a CLI tool")
    (v.NAME ++ " is a powerful CLI tool that helps you manage resources.")
    (versionString v.Version v.BuildTime)
    none

/-- The value of `versionCmd` apart from its body (version.go, lines 9-12),
registered under `parent` by `AddCommand`. -/
def versionCmd (parent : Option Command) : Command :=
  .mk "version"
    "Print the version information"
    "Print detailed version information about this build"
    ""
    parent

/-- Appends one event to the log. -/
def World.emit {Ptr R : Type} (w : World Ptr R) (e : Event) : World Ptr R :=
  { w with log := w.log ++ [e] }

/-- The hook `rootCmd.PersistentPreRunE` (root.go, lines 24-41).  Returns the
hook's error (`none` for `nil`) and the state after it. -/
def PersistentPreRunE {Ptr R : Type} (config : Resolver Ptr R)
    (cmd : Command) (_args : List String) (w : World Ptr R) :
    Option GoError × World Ptr R :=
  if cmd.Name = "version" ∨ cmd.Name = "help" ∨ cmd.Name = "completion" then
    (none, w)
  else
    -- cfg, err = config.LoadConfig(cfgFile, NAME)
    let w0 := w.emit (.LoadConfig w.vars.cfgFile w.vars.NAME)
    let out := config.LoadConfig w.vars.cfgFile w.vars.NAME w0.resolver
    let w1 : World Ptr R :=
      { w0 with vars := { w0.vars with cfg := out.1.1 }, resolver := out.2 }
    -- if err != nil
    let w2 : World Ptr R :=
      match out.1.2 with
      | some err =>
        let w1a :=
          w1.emit (.Stderr ("Warning: Failed to load config: " ++ err.Error ++ "\n"))
        { w1a with vars := { w1a.vars with cfg := config.DefaultConfig } }
      | none => w1
    -- if verbose
    let w3 : World Ptr R :=
      if w2.vars.verbose then
        let w2a := w2.emit .GetConfigPath
        let p := config.GetConfigPath w2a.resolver
        let w2b : World Ptr R := { w2a with resolver := p.2 }
        w2b.emit (.Stdout ("Using config file: " ++ p.1 ++ "\n"))
      else w2
    (none, w3)

/-- The body `versionCmd.Run` (version.go, lines 13-16).  It has no result
value: a `Run` body cannot return an error. -/
def versionCmdRun {Ptr R : Type} (_cmd : Command) (_args : List String)
    (w : World Ptr R) : World Ptr R :=
  let w1 := w.emit (.Stdout (w.vars.NAME ++ " version: " ++ w.vars.Version ++ "\n"))
  w1.emit (.Stdout ("Build time: " ++ w1.vars.BuildTime ++ "\n"))

/-- Writes to standard output among the events, in order. -/
def stdoutOf : List Event → List String
  | [] => []
  | .Stdout s :: es => s :: stdoutOf es
  | _ :: es => stdoutOf es

/-- Writes to the error stream among the events, in order. -/
def stderrOf : List Event → List String
  | [] => []
  | .Stderr s :: es => s :: stderrOf es
  | _ :: es => stderrOf es

/-- Calls of `config.LoadConfig` among the events, as (path, name) pairs. -/
def loadCallsOf : List Event → List (String × String)
  | [] => []
  | .LoadConfig p n :: es => (p, n) :: loadCallsOf es
  | _ :: es => loadCallsOf es

/-- Number of calls of `config.GetConfigPath` among the events. -/
def pathCallsOf : List Event → Nat
  | [] => 0
  | .GetConfigPath :: es => pathCallsOf es + 1
  | _ :: es => pathCallsOf es

/-- The events added to the log between state `w` and a later state `w'`. -/
def emitted {Ptr R : Type} (w w' : World Ptr R) : List Event :=
  w'.log.drop w.log.length

/-- A resolver used to run the definitions on concrete inputs: loading
succeeds exactly for the empty path (standard discovery), and the state
remembers the path last tried. -/
def sampleResolver : Resolver (Option String) String where
  LoadConfig := fun cfgFile name _ =>
    if cfgFile = "" then
      ((some ("config of " ++ name), none), "/home/user/." ++ name ++ ".yaml")
    else
      ((none, some ⟨"open " ++ cfgFile ++ ": no such file or directory"⟩), cfgFile)
  GetConfigPath := fun r => (r, r)
  DefaultConfig := some "default"

/-- A start state for the sample resolver with the initial build variables. -/
def sampleWorld (cfgFile : String) (verbose : Bool) : World (Option String) String :=
  { vars := ⟨defaultNAME, defaultVersion, defaultBuildTime, cfgFile, verbose, none⟩
    resolver := ""
    log := [] }

/-- The resolver `config`, made to keep in its own state the arguments of
every `LoadConfig` call it receives, in order.  The record is kept by the
callee, so it shows the calls really made on the resolver, whatever the
caller notes in the event log. -/
def recording {Ptr R : Type} (config : Resolver Ptr R) :
    Resolver Ptr (R × List (String × String)) where
  LoadConfig := fun cfgFile name s =>
    ((config.LoadConfig cfgFile name s.1).1,
     ((config.LoadConfig cfgFile name s.1).2, s.2 ++ [(cfgFile, name)]))
  GetConfigPath := fun s =>
    ((config.GetConfigPath s.1).1, ((config.GetConfigPath s.1).2, s.2))
  DefaultConfig := config.DefaultConfig

/-! ## Shared lemmas -/

theorem emitted_of_log_eq {Ptr R : Type} (w w' : World Ptr R) (evs : List Event)
    (h : w'.log = w.log ++ evs) : emitted w w' = evs := by
  simp [emitted, h]

theorem emitted_self {Ptr R : Type} (w : World Ptr R) : emitted w w = [] := by
  simp [emitted]

/-- The hook on a command it skips: nothing happens. -/
theorem hook_skip {Ptr R : Type} (config : Resolver Ptr R) (cmd : Command)
    (args : List String) (w : World Ptr R)
    (h : cmd.Name = "version" ∨ cmd.Name = "help" ∨ cmd.Name = "completion") :
    PersistentPreRunE config cmd args w = (none, w) := by
  unfold PersistentPreRunE
  rw [if_pos h]

/-- The events of the hook on a command it does not skip. -/
theorem hook_events {Ptr R : Type} (config : Resolver Ptr R) (cmd : Command)
    (args : List String) (w : World Ptr R)
    (h : ¬ (cmd.Name = "version" ∨ cmd.Name = "help" ∨ cmd.Name = "completion")) :
    emitted w (PersistentPreRunE config cmd args w).2 =
      [Event.LoadConfig w.vars.cfgFile w.vars.NAME]
      ++ (match (config.LoadConfig w.vars.cfgFile w.vars.NAME w.resolver).1.2 with
          | some err => [Event.Stderr ("Warning: Failed to load config: " ++ err.Error ++ "\n")]
          | none => [])
      ++ (if w.vars.verbose then
            [Event.GetConfigPath,
             Event.Stdout ("Using config file: "
               ++ (config.GetConfigPath
                    (config.LoadConfig w.vars.cfgFile w.vars.NAME w.resolver).2).1 ++ "\n")]
          else []) := by
  apply emitted_of_log_eq
  unfold PersistentPreRunE
  rw [if_neg h]
  cases hv : w.vars.verbose <;>
    cases he : (config.LoadConfig w.vars.cfgFile w.vars.NAME w.resolver).1.2 <;>
    simp [World.emit, hv, he]

/-- The value of `cfg` after the hook on a command it does not skip. -/
theorem hook_cfg {Ptr R : Type} (config : Resolver Ptr R) (cmd : Command)
    (args : List String) (w : World Ptr R)
    (h : ¬ (cmd.Name = "version" ∨ cmd.Name = "help" ∨ cmd.Name = "completion")) :
    (PersistentPreRunE config cmd args w).2.vars.cfg =
      (match (config.LoadConfig w.vars.cfgFile w.vars.NAME w.resolver).1.2 with
       | some _ => config.DefaultConfig
       | none => (config.LoadConfig w.vars.cfgFile w.vars.NAME w.resolver).1.1) := by
  unfold PersistentPreRunE
  rw [if_neg h]
  cases hv : w.vars.verbose <;>
    cases he : (config.LoadConfig w.vars.cfgFile w.vars.NAME w.resolver).1.2 <;>
    simp [World.emit, hv, he]

/-- The state of package `config` after the hook on a command it does not
skip: one `LoadConfig cfgFile NAME` applied to the state before, then
`GetConfigPath` when `verbose` is set. -/
theorem hook_resolver {Ptr R : Type} (config : Resolver Ptr R) (cmd : Command)
    (args : List String) (w : World Ptr R)
    (h : ¬ (cmd.Name = "version" ∨ cmd.Name = "help" ∨ cmd.Name = "completion")) :
    (PersistentPreRunE config cmd args w).2.resolver =
      (if w.vars.verbose then
        (config.GetConfigPath
          (config.LoadConfig w.vars.cfgFile w.vars.NAME w.resolver).2).2
       else (config.LoadConfig w.vars.cfgFile w.vars.NAME w.resolver).2) := by
  unfold PersistentPreRunE
  rw [if_neg h]
  cases hv : w.vars.verbose <;>
    cases he : (config.LoadConfig w.vars.cfgFile w.vars.NAME w.resolver).1.2 <;>
    simp [World.emit, hv, he]

/-! ## The pre-execution hook -/

/-- C1: for a selected command named `version`, `help` or `completion` the
hook is a no-op, whatever the `--config` path, the `--verbose` flag and the
current `cfg`: it returns no error, leaves the whole state (so `cfg` too)
as it was, calls neither `config.LoadConfig` nor `config.GetConfigPath`, and
writes nothing to standard output or to the error stream. -/
theorem C1_hook_noop_on_informational {Ptr R : Type} (config : Resolver Ptr R)
    (cmd : Command) (args : List String) (w : World Ptr R)
    (h : cmd.Name = "version" ∨ cmd.Name = "help" ∨ cmd.Name = "completion") :
    (PersistentPreRunE config cmd args w).1 = none
    ∧ (PersistentPreRunE config cmd args w).2 = w
    ∧ (PersistentPreRunE config cmd args w).2.vars.cfg = w.vars.cfg
    ∧ loadCallsOf (emitted w (PersistentPreRunE config cmd args w).2) = []
    ∧ pathCallsOf (emitted w (PersistentPreRunE config cmd args w).2) = 0
    ∧ stdoutOf (emitted w (PersistentPreRunE config cmd args w).2) = []
    ∧ stderrOf (emitted w (PersistentPreRunE config cmd args w).2) = [] := by
  rw [hook_skip config cmd args w h]
  simp [emitted_self, loadCallsOf, pathCallsOf, stdoutOf, stderrOf]

theorem C1_hook_noop_on_informational_witness :
    ((versionCmd none).Name = "version" ∨ (versionCmd none).Name = "help"
        ∨ (versionCmd none).Name = "completion")
    ∧ (PersistentPreRunE sampleResolver (versionCmd none) [] (sampleWorld "/x" true)).2
        = sampleWorld "/x" true
    ∧ stdoutOf (emitted (sampleWorld "/x" true)
        (PersistentPreRunE sampleResolver (versionCmd none) [] (sampleWorld "/x" true)).2) = [] :=
  have h := C1_hook_noop_on_informational sampleResolver (versionCmd none) []
    (sampleWorld "/x" true) (by decide)
  ⟨by decide, h.2.1, h.2.2.2.2.2.1⟩

/-- C2: for a selected command not named `version`, `help` or `completion`,
when `config.LoadConfig` returns the error `e` (alongside any pointer), the
hook writes to the error stream exactly one text, the warning
"Warning: Failed to load config: " followed by the text of `e` and a newline,
and afterwards `cfg` is `&config.DefaultConfig`. -/
theorem C2_hook_warns_and_falls_back {Ptr R : Type} (config : Resolver Ptr R)
    (cmd : Command) (args : List String) (w : World Ptr R) (e : GoError)
    (h : ¬ (cmd.Name = "version" ∨ cmd.Name = "help" ∨ cmd.Name = "completion"))
    (he : (config.LoadConfig w.vars.cfgFile w.vars.NAME w.resolver).1.2 = some e) :
    stderrOf (emitted w (PersistentPreRunE config cmd args w).2)
        = ["Warning: Failed to load config: " ++ e.Error ++ "\n"]
    ∧ (PersistentPreRunE config cmd args w).2.vars.cfg = config.DefaultConfig := by
  rw [hook_events config cmd args w h, hook_cfg config cmd args w h, he]
  cases w.vars.verbose <;> simp [stderrOf]

theorem C2_hook_warns_and_falls_back_witness :
    (sampleResolver.LoadConfig "/x" "mycli" "").1 = (none, some ⟨"open /x: no such file or directory"⟩)
    ∧ stderrOf (emitted (sampleWorld "/x" true)
        (PersistentPreRunE sampleResolver (.mk "list [flags]" "" "" "" none) []
          (sampleWorld "/x" true)).2)
        = ["Warning: Failed to load config: open /x: no such file or directory\n"]
    ∧ (PersistentPreRunE sampleResolver (.mk "list [flags]" "" "" "" none) []
          (sampleWorld "/x" true)).2.vars.cfg = some "default" :=
  have h := C2_hook_warns_and_falls_back sampleResolver (.mk "list [flags]" "" "" "" none) []
    (sampleWorld "/x" true) ⟨"open /x: no such file or directory"⟩ (by decide) (by decide)
  ⟨by decide, h.1, h.2⟩

/-- C3: the hook never fails the command: for every selected command, every
value of the package variables (so every `--config` path and `--verbose`)
and every resolver (so every outcome of `config.LoadConfig`, a configuration
or an error), `rootCmd.PersistentPreRunE` returns a nil error. -/
theorem C3_hook_returns_nil {Ptr R : Type} (config : Resolver Ptr R)
    (cmd : Command) (args : List String) (w : World Ptr R) :
    (PersistentPreRunE config cmd args w).1 = none := by
  unfold PersistentPreRunE
  split <;> rfl

/-- C4: for a selected command not named `version`, `help` or `completion`,
when `config.LoadConfig` returns the pointer `c` with a nil error, `cfg`
after the hook is `c`, and the hook writes nothing to the error stream. -/
theorem C4_hook_keeps_loaded_config {Ptr R : Type} (config : Resolver Ptr R)
    (cmd : Command) (args : List String) (w : World Ptr R) (c : Ptr)
    (h : ¬ (cmd.Name = "version" ∨ cmd.Name = "help" ∨ cmd.Name = "completion"))
    (hc : (config.LoadConfig w.vars.cfgFile w.vars.NAME w.resolver).1 = (c, none)) :
    (PersistentPreRunE config cmd args w).2.vars.cfg = c
    ∧ stderrOf (emitted w (PersistentPreRunE config cmd args w).2) = [] := by
  rw [hook_events config cmd args w h, hook_cfg config cmd args w h, hc]
  cases w.vars.verbose <;> simp [stderrOf]

theorem C4_hook_keeps_loaded_config_witness :
    (sampleResolver.LoadConfig "" "mycli" "").1 = (some "config of mycli", none)
    ∧ (PersistentPreRunE sampleResolver (.mk "list [flags]" "" "" "" none) []
          (sampleWorld "" true)).2.vars.cfg = some "config of mycli"
    ∧ stderrOf (emitted (sampleWorld "" true)
        (PersistentPreRunE sampleResolver (.mk "list [flags]" "" "" "" none) []
          (sampleWorld "" true)).2) = [] :=
  have h := C4_hook_keeps_loaded_config sampleResolver (.mk "list [flags]" "" "" "" none) []
    (sampleWorld "" true) (some "config of mycli") (by decide) (by decide)
  ⟨by decide, h.1, h.2⟩

/-- C6: for a selected command not named `version`, `help` or `completion`
and every value `p` of `cfgFile` (the `--config` flag, the empty default
included), the hook calls `config.LoadConfig` exactly once, with `p` itself
as the path and `NAME` as the name, and with no other path:
* the event log gets exactly one load event, for `(p, NAME)`;
* the state of package `config` after the hook is the state after one
  application of `LoadConfig p NAME` to the state before (followed by
  `GetConfigPath` when `verbose` is set), and `cfg` and the hook's error
  stream come from the result of that same application;
* run on a resolver that records the calls it receives, the record grows by
  exactly the one entry `(p, NAME)`. -/
theorem C6_hook_loads_once_with_flag_path {Ptr R : Type} (config : Resolver Ptr R)
    (cmd : Command) (args : List String) (w : World Ptr R)
    (h : ¬ (cmd.Name = "version" ∨ cmd.Name = "help" ∨ cmd.Name = "completion")) :
    loadCallsOf (emitted w (PersistentPreRunE config cmd args w).2)
      = [(w.vars.cfgFile, w.vars.NAME)]
    ∧ (PersistentPreRunE config cmd args w).2.resolver
      = (if w.vars.verbose then
          (config.GetConfigPath
            (config.LoadConfig w.vars.cfgFile w.vars.NAME w.resolver).2).2
         else (config.LoadConfig w.vars.cfgFile w.vars.NAME w.resolver).2)
    ∧ (PersistentPreRunE config cmd args w).2.vars.cfg
      = (match (config.LoadConfig w.vars.cfgFile w.vars.NAME w.resolver).1.2 with
         | some _ => config.DefaultConfig
         | none => (config.LoadConfig w.vars.cfgFile w.vars.NAME w.resolver).1.1)
    ∧ stderrOf (emitted w (PersistentPreRunE config cmd args w).2)
      = (match (config.LoadConfig w.vars.cfgFile w.vars.NAME w.resolver).1.2 with
         | some err => ["Warning: Failed to load config: " ++ err.Error ++ "\n"]
         | none => [])
    ∧ (∀ calls : List (String × String),
        (PersistentPreRunE (recording config) cmd args
            ⟨w.vars, (w.resolver, calls), w.log⟩).2.resolver.2
          = calls ++ [(w.vars.cfgFile, w.vars.NAME)]
        ∧ (PersistentPreRunE (recording config) cmd args
            ⟨w.vars, (w.resolver, calls), w.log⟩).2.resolver.1
          = (PersistentPreRunE config cmd args w).2.resolver) := by
  refine ⟨?_, hook_resolver config cmd args w h, hook_cfg config cmd args w h, ?_, ?_⟩
  · rw [hook_events config cmd args w h]
    cases w.vars.verbose <;>
      cases (config.LoadConfig w.vars.cfgFile w.vars.NAME w.resolver).1.2 <;>
      simp [loadCallsOf]
  · rw [hook_events config cmd args w h]
    cases w.vars.verbose <;>
      cases (config.LoadConfig w.vars.cfgFile w.vars.NAME w.resolver).1.2 <;>
      simp [stderrOf]
  · intro calls
    rw [hook_resolver (recording config) cmd args ⟨w.vars, (w.resolver, calls), w.log⟩ h,
      hook_resolver config cmd args w h]
    cases w.vars.verbose <;> simp [recording]

theorem C6_hook_loads_once_with_flag_path_witness :
    loadCallsOf (emitted (sampleWorld "" false)
        (PersistentPreRunE sampleResolver (.mk "list [flags]" "" "" "" none) []
          (sampleWorld "" false)).2) = [("", "mycli")]
    ∧ (PersistentPreRunE sampleResolver (.mk "list [flags]" "" "" "" none) []
          (sampleWorld "" false)).2.resolver = "/home/user/.mycli.yaml"
    ∧ (PersistentPreRunE sampleResolver (.mk "list [flags]" "" "" "" none) []
          (sampleWorld "/etc/my.yaml" true)).2.resolver = "/etc/my.yaml"
    ∧ (PersistentPreRunE (recording sampleResolver) (.mk "list [flags]" "" "" "" none) []
          ⟨(sampleWorld "/etc/my.yaml" true).vars,
           ((sampleWorld "/etc/my.yaml" true).resolver, [("old", "call")]),
           (sampleWorld "/etc/my.yaml" true).log⟩).2.resolver.2
        = [("old", "call"), ("/etc/my.yaml", "mycli")] :=
  ⟨(C6_hook_loads_once_with_flag_path sampleResolver (.mk "list [flags]" "" "" "" none) []
      (sampleWorld "" false) (by decide)).1,
   (C6_hook_loads_once_with_flag_path sampleResolver (.mk "list [flags]" "" "" "" none) []
      (sampleWorld "" false) (by decide)).2.1,
   (C6_hook_loads_once_with_flag_path sampleResolver (.mk "list [flags]" "" "" "" none) []
      (sampleWorld "/etc/my.yaml" true) (by decide)).2.1,
   ((C6_hook_loads_once_with_flag_path sampleResolver (.mk "list [flags]" "" "" "" none) []
      (sampleWorld "/etc/my.yaml" true) (by decide)).2.2.2.2 [("old", "call")]).1⟩

/-- C7: for a selected command not named `version`, `help` or `completion`
and every outcome of the load, what the hook writes to standard output is
fixed by `verbose`: when it is set, exactly the one text
"Using config file: " followed by the path that `config.GetConfigPath`
reports (called once, after the load) and a newline; when it is unset,
nothing, and `config.GetConfigPath` is not called. -/
theorem C7_hook_stdout_by_verbose {Ptr R : Type} (config : Resolver Ptr R)
    (cmd : Command) (args : List String) (w : World Ptr R)
    (h : ¬ (cmd.Name = "version" ∨ cmd.Name = "help" ∨ cmd.Name = "completion")) :
    stdoutOf (emitted w (PersistentPreRunE config cmd args w).2)
      = (if w.vars.verbose then
          ["Using config file: "
            ++ (config.GetConfigPath
                 (config.LoadConfig w.vars.cfgFile w.vars.NAME w.resolver).2).1 ++ "\n"]
         else [])
    ∧ pathCallsOf (emitted w (PersistentPreRunE config cmd args w).2)
      = (if w.vars.verbose then 1 else 0) := by
  rw [hook_events config cmd args w h]
  cases w.vars.verbose <;>
    cases (config.LoadConfig w.vars.cfgFile w.vars.NAME w.resolver).1.2 <;>
    simp [stdoutOf, pathCallsOf]

theorem C7_hook_stdout_by_verbose_witness :
    stdoutOf (emitted (sampleWorld "/x" true)
        (PersistentPreRunE sampleResolver (.mk "list [flags]" "" "" "" none) []
          (sampleWorld "/x" true)).2) = ["Using config file: /x\n"]
    ∧ stdoutOf (emitted (sampleWorld "" true)
        (PersistentPreRunE sampleResolver (.mk "list [flags]" "" "" "" none) []
          (sampleWorld "" true)).2) = ["Using config file: /home/user/.mycli.yaml\n"]
    ∧ stdoutOf (emitted (sampleWorld "/x" false)
        (PersistentPreRunE sampleResolver (.mk "list [flags]" "" "" "" none) []
          (sampleWorld "/x" false)).2) = [] :=
  ⟨(C7_hook_stdout_by_verbose sampleResolver (.mk "list [flags]" "" "" "" none) []
      (sampleWorld "/x" true) (by decide)).1,
   (C7_hook_stdout_by_verbose sampleResolver (.mk "list [flags]" "" "" "" none) []
      (sampleWorld "" true) (by decide)).1,
   (C7_hook_stdout_by_verbose sampleResolver (.mk "list [flags]" "" "" "" none) []
      (sampleWorld "/x" false) (by decide)).1⟩

/-- C8, as stated, fails: with `verbose` set and the command `version`
selected, the hook writes no line at all to standard output (and does not
ask the resolver for the path). -/
theorem C8_verbose_line_counterexample :
    (sampleWorld "" true).vars.verbose = true
    ∧ (versionCmd none).Name = "version"
    ∧ stdoutOf (emitted (sampleWorld "" true)
        (PersistentPreRunE sampleResolver (versionCmd none) [] (sampleWorld "" true)).2) = []
    ∧ ¬ (∀ (cmd : Command) (w : World (Option String) String), w.vars.verbose = true →
          (stdoutOf (emitted w (PersistentPreRunE sampleResolver cmd [] w).2)).length = 1) := by
  refine ⟨by decide, by decide, by decide, ?_⟩
  intro hall
  exact absurd (hall (versionCmd none) (sampleWorld "" true) (by decide)) (by decide)

/-- C8, amended: with `verbose` set and a selected command not named
`version`, `help` or `completion`, the hook writes to standard output exactly
one text, the line "Using config file: " with the path reported by
`config.GetConfigPath`, whether `config.LoadConfig` succeeded or failed; for
a command named `version`, `help` or `completion` it writes none. -/
theorem C8_verbose_line_outside_informational {Ptr R : Type} (config : Resolver Ptr R)
    (cmd : Command) (args : List String) (w : World Ptr R)
    (hv : w.vars.verbose = true) :
    (¬ (cmd.Name = "version" ∨ cmd.Name = "help" ∨ cmd.Name = "completion") →
      (stdoutOf (emitted w (PersistentPreRunE config cmd args w).2)).length = 1
      ∧ stdoutOf (emitted w (PersistentPreRunE config cmd args w).2)
        = ["Using config file: "
            ++ (config.GetConfigPath
                 (config.LoadConfig w.vars.cfgFile w.vars.NAME w.resolver).2).1 ++ "\n"])
    ∧ ((cmd.Name = "version" ∨ cmd.Name = "help" ∨ cmd.Name = "completion") →
      stdoutOf (emitted w (PersistentPreRunE config cmd args w).2) = []) := by
  constructor
  · intro h
    rw [hook_events config cmd args w h, hv]
    cases (config.LoadConfig w.vars.cfgFile w.vars.NAME w.resolver).1.2 <;> simp [stdoutOf]
  · intro h
    rw [hook_skip config cmd args w h]
    simp [emitted_self, stdoutOf]

theorem C8_verbose_line_outside_informational_witness :
    stdoutOf (emitted (sampleWorld "/x" true)
        (PersistentPreRunE sampleResolver (.mk "list [flags]" "" "" "" none) []
          (sampleWorld "/x" true)).2) = ["Using config file: /x\n"]
    ∧ stdoutOf (emitted (sampleWorld "" true)
        (PersistentPreRunE sampleResolver (.mk "list [flags]" "" "" "" none) []
          (sampleWorld "" true)).2) = ["Using config file: /home/user/.mycli.yaml\n"]
    ∧ stdoutOf (emitted (sampleWorld "/x" true)
        (PersistentPreRunE sampleResolver (.mk "help [command]" "" "" "" none) []
          (sampleWorld "/x" true)).2) = [] :=
  ⟨((C8_verbose_line_outside_informational sampleResolver (.mk "list [flags]" "" "" "" none) []
      (sampleWorld "/x" true) rfl).1 (by decide)).2,
   ((C8_verbose_line_outside_informational sampleResolver (.mk "list [flags]" "" "" "" none) []
      (sampleWorld "" true) rfl).1 (by decide)).2,
   (C8_verbose_line_outside_informational sampleResolver (.mk "help [command]" "" "" "" none) []
      (sampleWorld "/x" true) rfl).2 (by decide)⟩

/-- The hook does not skip a command whose first word of `Use` is none of
the three names. -/
theorem not_skipped_of_name (c : Command) (n : String) (hn : c.Name = n)
    (h1 : n ≠ "version") (h2 : n ≠ "help") (h3 : n ≠ "completion") :
    ¬ (c.Name = "version" ∨ c.Name = "help" ∨ c.Name = "completion") := by
  rw [hn]
  rintro (h | h | h)
  · exact h1 h
  · exact h2 h
  · exact h3 h

/-! ## The version command and the root command -/

/-- C5: for every value of `NAME`, `Version` and `BuildTime` and every
argument list, the body of the version command writes to standard output
exactly two texts, in this order: `NAME`, " version: ", `Version` and a
newline, then "Build time: ", `BuildTime` and a newline.  It does nothing
else (no write to the error stream, no call of the resolver) and leaves the
package variables (`cfg`, `cfgFile`, `verbose` among them) and the resolver
as they were; the body has no error result.  With the initial build
variables the output is "mycli version: dev\nBuild time: unknown\n". -/
theorem C5_version_body_output {Ptr R : Type} (cmd : Command) (args : List String)
    (w : World Ptr R) :
    emitted w (versionCmdRun cmd args w)
      = [Event.Stdout (w.vars.NAME ++ " version: " ++ w.vars.Version ++ "\n"),
         Event.Stdout ("Build time: " ++ w.vars.BuildTime ++ "\n")]
    ∧ stdoutOf (emitted w (versionCmdRun cmd args w))
      = [w.vars.NAME ++ " version: " ++ w.vars.Version ++ "\n",
         "Build time: " ++ w.vars.BuildTime ++ "\n"]
    ∧ stderrOf (emitted w (versionCmdRun cmd args w)) = []
    ∧ (versionCmdRun cmd args w).vars = w.vars
    ∧ (versionCmdRun cmd args w).resolver = w.resolver
    ∧ (∀ (cfgFile : String) (verbose : Bool) (cfg : Ptr) (r : R) (log : List Event),
        String.join (stdoutOf (emitted
          ⟨⟨defaultNAME, defaultVersion, defaultBuildTime, cfgFile, verbose, cfg⟩, r, log⟩
          (versionCmdRun cmd args
            ⟨⟨defaultNAME, defaultVersion, defaultBuildTime, cfgFile, verbose, cfg⟩, r, log⟩)))
        = "mycli version: dev\nBuild time: unknown\n") := by
  have hlog : ∀ u : World Ptr R, emitted u (versionCmdRun cmd args u)
      = [Event.Stdout (u.vars.NAME ++ " version: " ++ u.vars.Version ++ "\n"),
         Event.Stdout ("Build time: " ++ u.vars.BuildTime ++ "\n")] := by
    intro u
    apply emitted_of_log_eq
    simp [versionCmdRun, World.emit]
  refine ⟨hlog w, ?_, ?_, rfl, rfl, ?_⟩
  · rw [hlog w]; rfl
  · rw [hlog w]; rfl
  · intro cfgFile verbose cfg r log
    rw [hlog]
    show String.join [defaultNAME ++ " version: " ++ defaultVersion ++ "\n",
      "Build time: " ++ defaultBuildTime ++ "\n"] = "mycli version: dev\nBuild time: unknown\n"
    decide

/-- C9, as stated, fails: built with `NAME` set to "my cli", the root
command has `Use` equal to `NAME` but its name is "my", not `NAME`. -/
theorem C9_root_name_counterexample :
    (rootCmd (⟨"my cli", "dev", "unknown", "", false, none⟩ : Vars (Option String))).Use = "my cli"
    ∧ (rootCmd (⟨"my cli", "dev", "unknown", "", false, none⟩ : Vars (Option String))).Name = "my"
    ∧ (rootCmd (⟨"my cli", "dev", "unknown", "", false, none⟩ : Vars (Option String))).Name
        ≠ (⟨"my cli", "dev", "unknown", "", false, none⟩ : Vars (Option String)).NAME := by
  decide

/-- C9, amended: for every value of the build variables, `rootCmd.Version` is
`Version` followed by " (built at ", `BuildTime` and ")", `rootCmd.Use` is
`NAME` and `rootCmd.Short` is `NAME` followed by " is a CLI tool"; the root
command's name (first word of `Use`) equals `NAME` exactly when `NAME`
contains no space.  With the initial build variables the version string is
"dev (built at unknown)" and the name is "mycli". -/
theorem C9_root_command_fields {Ptr : Type} (v : Vars Ptr) :
    (rootCmd v).Version = v.Version ++ " (built at " ++ v.BuildTime ++ ")"
    ∧ (rootCmd v).Use = v.NAME
    ∧ (rootCmd v).Short = v.NAME ++ " is a CLI tool"
    ∧ ((rootCmd v).Name = v.NAME ↔ ' ' ∉ v.NAME.data)
    ∧ (∀ (cfgFile : String) (verbose : Bool) (cfg : Ptr),
        (rootCmd ⟨defaultNAME, defaultVersion, defaultBuildTime, cfgFile, verbose, cfg⟩).Version
          = "dev (built at unknown)"
        ∧ (rootCmd ⟨defaultNAME, defaultVersion, defaultBuildTime, cfgFile, verbose, cfg⟩).Name
          = "mycli") := by
  refine ⟨rfl, rfl, rfl, ?_, ?_⟩
  · have hdata : (rootCmd v).Name.data = v.NAME.data.takeWhile (fun ch => ch != ' ') := rfl
    constructor
    · intro h hmem
      have h2 : v.NAME.data.takeWhile (fun ch => ch != ' ') = v.NAME.data := by
        rw [← hdata, h]
      have h3 := (List.takeWhile_eq_self_iff.mp h2) ' ' hmem
      simp at h3
    · intro h
      have h2 : v.NAME.data.takeWhile (fun ch => ch != ' ') = v.NAME.data := by
        apply List.takeWhile_eq_self_iff.mpr
        intro x hx
        have : x ≠ ' ' := fun hxe => h (hxe ▸ hx)
        simpa using this
      exact String.ext (hdata.trans h2)
  · intro cfgFile verbose cfg
    constructor
    · show versionString defaultVersion defaultBuildTime = "dev (built at unknown)"
      decide
    · show (⟨defaultNAME.data.takeWhile (fun ch => ch != ' ')⟩ : String) = "mycli"
      decide

/-! ## What the skip decision depends on -/

/-- C10: the hook's decision depends only on the selected command's own name,
compared exactly.  Two commands with the same name (whatever their other
fields and parents) get the same result; a command whose name is none of
`version`, `help`, `completion` causes exactly one `config.LoadConfig` call
and, when that call fails, the warning; a command with one of the three
names causes no call.  In particular "Version", "versions" (under any
parent), the root command named "mycli", and the child `bash` of the
completion command all cause the load. -/
theorem C10_hook_decides_by_own_name {Ptr R : Type} (config : Resolver Ptr R)
    (cmd other : Command) (args : List String) (w : World Ptr R) :
    (cmd.Name = other.Name →
      PersistentPreRunE config cmd args w = PersistentPreRunE config other args w)
    ∧ (¬ (cmd.Name = "version" ∨ cmd.Name = "help" ∨ cmd.Name = "completion") →
        loadCallsOf (emitted w (PersistentPreRunE config cmd args w).2)
          = [(w.vars.cfgFile, w.vars.NAME)]
        ∧ ∀ e : GoError,
            (config.LoadConfig w.vars.cfgFile w.vars.NAME w.resolver).1.2 = some e →
            stderrOf (emitted w (PersistentPreRunE config cmd args w).2)
              = ["Warning: Failed to load config: " ++ e.Error ++ "\n"])
    ∧ ((cmd.Name = "version" ∨ cmd.Name = "help" ∨ cmd.Name = "completion") →
        loadCallsOf (emitted w (PersistentPreRunE config cmd args w).2) = [])
    ∧ (∀ c ∈ [Command.mk "Version" "" "" "" cmd.parent,
              Command.mk "versions" "" "" "" cmd.parent,
              rootCmd { w.vars with NAME := defaultNAME },
              Command.mk "bash" "" "" ""
                (some (Command.mk "completion" "" "" "" (some (rootCmd w.vars))))],
        ¬ (c.Name = "version" ∨ c.Name = "help" ∨ c.Name = "completion")
        ∧ loadCallsOf (emitted w (PersistentPreRunE config c args w).2)
          = [(w.vars.cfgFile, w.vars.NAME)]) := by
  have hload : ∀ c : Command,
      ¬ (c.Name = "version" ∨ c.Name = "help" ∨ c.Name = "completion") →
      loadCallsOf (emitted w (PersistentPreRunE config c args w).2)
        = [(w.vars.cfgFile, w.vars.NAME)] := by
    intro c hc
    rw [hook_events config c args w hc]
    cases w.vars.verbose <;>
      cases (config.LoadConfig w.vars.cfgFile w.vars.NAME w.resolver).1.2 <;>
      simp [loadCallsOf]
  refine ⟨?_, ?_, ?_, ?_⟩
  · intro hn
    unfold PersistentPreRunE
    rw [hn]
  · intro h
    refine ⟨hload cmd h, ?_⟩
    intro e he
    rw [hook_events config cmd args w h, he]
    cases w.vars.verbose <;> simp [stderrOf]
  · intro h
    rw [hook_skip config cmd args w h]
    simp [emitted_self, loadCallsOf]
  · intro c hc
    have hns : ¬ (c.Name = "version" ∨ c.Name = "help" ∨ c.Name = "completion") := by
      simp only [List.mem_cons, List.mem_singleton, List.mem_nil_iff, or_false] at hc
      rcases hc with rfl | rfl | rfl | rfl
      · exact not_skipped_of_name _ "Version" rfl (by decide) (by decide) (by decide)
      · exact not_skipped_of_name _ "versions" rfl (by decide) (by decide) (by decide)
      · exact not_skipped_of_name _ "mycli" rfl (by decide) (by decide) (by decide)
      · exact not_skipped_of_name _ "bash" rfl (by decide) (by decide) (by decide)
    exact ⟨hns, hload c hns⟩

theorem C10_hook_decides_by_own_name_witness :
    (Command.mk "list [flags]" "a" "b" "c" none).Name
        = (Command.mk "list" "" "" "" (some (versionCmd none))).Name
    ∧ PersistentPreRunE sampleResolver (.mk "list [flags]" "a" "b" "c" none) []
          (sampleWorld "/x" true)
        = PersistentPreRunE sampleResolver (.mk "list" "" "" "" (some (versionCmd none))) []
          (sampleWorld "/x" true)
    ∧ loadCallsOf (emitted (sampleWorld "/x" true)
        (PersistentPreRunE sampleResolver (.mk "list [flags]" "a" "b" "c" none) []
          (sampleWorld "/x" true)).2) = [("/x", "mycli")]
    ∧ stderrOf (emitted (sampleWorld "/x" true)
        (PersistentPreRunE sampleResolver (.mk "list [flags]" "a" "b" "c" none) []
          (sampleWorld "/x" true)).2)
        = ["Warning: Failed to load config: open /x: no such file or directory\n"]
    ∧ loadCallsOf (emitted (sampleWorld "/x" true)
        (PersistentPreRunE sampleResolver (versionCmd none) [] (sampleWorld "/x" true)).2) = [] :=
  have h := C10_hook_decides_by_own_name sampleResolver (.mk "list [flags]" "a" "b" "c" none)
    (.mk "list" "" "" "" (some (versionCmd none))) [] (sampleWorld "/x" true)
  have hv := C10_hook_decides_by_own_name sampleResolver (versionCmd none)
    (versionCmd none) [] (sampleWorld "/x" true)
  ⟨by decide, h.1 (by decide), (h.2.1 (by decide)).1,
   (h.2.1 (by decide)).2 ⟨"open /x: no such file or directory"⟩ (by decide),
   hv.2.2.1 (by decide)⟩

end CliTemplate
